import Mathlib

/-!
# Verification of `InstanceTracker` / `WidgetTracker`

A shallow embedding of the instance-tracking and state-restoration core of
this repository (`InstanceTracker` in the coreutils package, and the
`currentChanged` composition logic of `WidgetTracker` in the apputils
package).

Tracked instances are identified by natural numbers.  Attached properties
(`injectedProperty`, `nameProperty`) are identity-keyed side tables, modelled
as functions `Nat → Bool` / `Nat → String` with the source defaults
(`false` / `""`).  The external collaborators (data connector, command
registry) are modelled as oracles that say whether each persistence or
command operation fulfills or rejects; each tracker operation additionally
returns the trace of connector/registry operations it issued and the list of
signal emissions, so claims about event counts and operation ordering can be
stated directly.

Asynchronous execution is single-threaded and cooperative in the source;
every operation is modelled as an atomic state transition whose outcome at
each `await` point is determined by the oracle.
-/

/-- Restoration data payload (the `data` stored with the connector and passed
to `registry.execute`). Its structure is irrelevant to the tracker. -/
abbrev Args := Nat

/-- Signal emissions of an `InstanceTracker`:
`_added`, `_updated` and `_currentChanged`. -/
inductive Event where
  | added (o : Nat)
  | updated (o : Nat)
  | currentChanged (v : Option Nat)
  deriving DecidableEq, Repr

/-- Operations issued against the external collaborators: the data
connector's `save`/`remove` and the command registry's `execute`. -/
inductive ConnOp where
  | save (key : String) (data : Args)
  | remove (key : String)
  | exec (command : String) (args : Args)
  deriving DecidableEq, Repr

/-- The data connector collaborator, as an oracle telling whether each
`save(key, value)` / `remove(key)` call fulfills (`true`) or rejects. -/
structure Connector where
  saveOk : String → Bool
  removeOk : String → Bool

/-- The command registry collaborator, as an oracle telling whether
`execute(command, args)` fulfills or rejects. -/
structure Registry where
  execOk : String → Args → Bool

/-- `IRestorable.IOptions`: the restore configuration stored in `_restore`
(the `when` gate is kept outside the state; restoration claims are stated
after the listing and the gate have resolved). -/
structure RestoreOptions where
  command : String
  connector : Connector
  registry : Registry
  nameOf : Nat → String
  argsOf : Nat → Args

/-- The state of an `InstanceTracker`.

* `nspace` is the `namespace` option (immutable).
* `instances` is the `_instances` set; `add` checks membership before
  inserting, so the list never holds duplicates.
* `connected` records the instances whose `disposed` signal is connected to
  `_onInstanceDisposed`.
* `restoredResolved` is true once the `_restored` promise delegate has been
  resolved.
* `injected` and `names` are the `Private.injectedProperty` and
  `Private.nameProperty` attached properties, with their `create` defaults. -/
structure TrackerState where
  nspace : String
  instances : List Nat := []
  connected : List Nat := []
  current : Option Nat := none
  hasRestored : Bool := false
  restoreConf : Option RestoreOptions := none
  restoredResolved : Bool := false
  isDisposed : Bool := false
  injected : Nat → Bool := fun _ => false
  names : Nat → String := fun _ => ""

/-- `${this.namespace}:${objName}` -/
def fullName (ns objName : String) : String := ns ++ ":" ++ objName

/-- Membership test used by the `current` setter: `this._instances.has(obj)`.
A `null` argument is never a member of the set. -/
def memOpt (obj : Option Nat) (l : List Nat) : Bool :=
  match obj with
  | none => false
  | some o => l.contains o

/-- The `current` setter.  Returns the new state and the `_currentChanged`
emissions (at most one). -/
def setCurrent (s : TrackerState) (obj : Option Nat) :
    TrackerState × List Event :=
  if s.current = obj then (s, [])
  else if memOpt obj s.instances then
    ({ s with current := obj }, [Event.currentChanged obj])
  else (s, [])

/-- Errors thrown or rejected by `add`. -/
inductive AddErr where
  | disposedErr
  | alreadyTracked
  | saveRejected
  deriving DecidableEq, Repr

/-- Result of a call to `add`: the post state, the signal emissions, the
trace of connector operations, and fulfillment or rejection. -/
structure AddResult where
  state : TrackerState
  events : List Event
  ops : List ConnOp
  res : Except AddErr Unit

/-- `InstanceTracker.add(obj)`.  `objDisposed` is the value of
`obj.isDisposed` at call time. -/
def add (s : TrackerState) (o : Nat) (objDisposed : Bool) : AddResult :=
  if objDisposed then
    ⟨s, [], [], .error .disposedErr⟩
  else if s.instances.contains o then
    ⟨s, [], [], .error .alreadyTracked⟩
  else
    let s1 := { s with instances := s.instances ++ [o],
                       connected := s.connected ++ [o] }
    if s1.injected o then
      ⟨s1, [], [], .ok ()⟩
    else
      match s1.restoreConf with
      | none => ⟨s1, [Event.added o], [], .ok ()⟩
      | some r =>
        let objName := r.nameOf o
        if objName ≠ "" then
          let name := fullName s1.nspace objName
          let data := r.argsOf o
          let s2 := { s1 with names := fun x => if x = o then name else s1.names x }
          if r.connector.saveOk name then
            ⟨s2, [Event.added o], [ConnOp.save name data], .ok ()⟩
          else
            ⟨s2, [], [ConnOp.save name data], .error .saveRejected⟩
        else
          ⟨s1, [Event.added o], [], .ok ()⟩

/-- `InstanceTracker.inject(obj)`: tags the instance injected, then
delegates to `add`. -/
def inject (s : TrackerState) (o : Nat) (objDisposed : Bool) : AddResult :=
  add { s with injected := fun x => if x = o then true else s.injected x }
    o objDisposed

/-- `InstanceTracker.has(obj)`. -/
def hasInst (s : TrackerState) (o : Nat) : Bool := s.instances.contains o

/-- `InstanceTracker.dispose()`. -/
def dispose (s : TrackerState) : TrackerState :=
  if s.isDisposed then s
  else { s with current := none, instances := [], isDisposed := true,
                connected := [] }

/-- Result of the `_onInstanceDisposed` handler: post state, signal
emissions, and fire-and-forget connector operations (their outcomes are
ignored by the handler). -/
structure DisposedResult where
  state : TrackerState
  events : List Event
  ops : List ConnOp

/-- `InstanceTracker._onInstanceDisposed(obj)`: the reaction to a tracked
instance signaling its own disposal. -/
def onInstanceDisposed (s : TrackerState) (o : Nat) : DisposedResult :=
  let inst1 := s.instances.erase o
  let cleared := s.current = some o
  let s1 := { s with instances := inst1,
                     current := if cleared then none else s.current }
  let evs := if cleared then [Event.currentChanged none] else []
  if s1.injected o then ⟨s1, evs, []⟩
  else
    match s1.restoreConf with
    | none => ⟨s1, evs, []⟩
    | some _ =>
      let name := s1.names o
      if name ≠ "" then ⟨s1, evs, [ConnOp.remove name]⟩
      else ⟨s1, evs, []⟩

/-- Connector failures during `save`. -/
inductive SaveErr where
  | removeRejected
  | saveRejected
  deriving DecidableEq, Repr

/-- Result of a call to `save`. -/
structure SaveResult where
  state : TrackerState
  events : List Event
  ops : List ConnOp
  res : Except SaveErr Unit

/-- The tail of `save` after the old-entry removal: sets the name property
irrespective of whether the new name is empty, persists under the new name
when non-empty, and emits `_updated` exactly when the name changed. -/
def saveRest (s : TrackerState) (r : RestoreOptions) (o : Nat)
    (oldName newName : String) (ops0 : List ConnOp) : SaveResult :=
  let s1 := { s with names := fun x => if x = o then newName else s.names x }
  if newName ≠ "" then
    let data := r.argsOf o
    if r.connector.saveOk newName then
      ⟨s1, if oldName ≠ newName then [Event.updated o] else [],
        ops0 ++ [ConnOp.save newName data], .ok ()⟩
    else
      ⟨s1, [], ops0 ++ [ConnOp.save newName data], .error .saveRejected⟩
  else
    ⟨s1, if oldName ≠ newName then [Event.updated o] else [], ops0, .ok ()⟩

/-- `InstanceTracker.save(obj)`. -/
def save (s : TrackerState) (o : Nat) : SaveResult :=
  match s.restoreConf with
  | none => ⟨s, [], [], .ok ()⟩
  | some r =>
    if ¬ hasInst s o ∨ s.injected o then ⟨s, [], [], .ok ()⟩
    else
      let objName := r.nameOf o
      let oldName := s.names o
      let newName := if objName ≠ "" then fullName s.nspace objName else ""
      if oldName ≠ "" ∧ oldName ≠ newName then
        if r.connector.removeOk oldName then
          saveRest s r o oldName newName [ConnOp.remove oldName]
        else
          ⟨s, [], [ConnOp.remove oldName], .error .removeRejected⟩
      else
        saveRest s r o oldName newName []

/-- Outcome of one restored entry's promise inside the `Promise.all` batch. -/
inductive EntryOutcome where
  | execDone
  | removed
  | removeFailed
  deriving DecidableEq, Repr

/-- Whether an entry's promise fulfilled (did not reject). -/
def entrySettled : EntryOutcome → Bool
  | .removeFailed => false
  | _ => true

/-- Processing of a single persisted entry `(id, args)` during `restore`,
where `args` is `undefined` (`none`) when the entry carries no data payload:
no payload means a direct `connector.remove(id)`; otherwise the command is
executed with the stored arguments, and a failed execution falls back to
`connector.remove(id)` via the attached `catch`.  Returns the operations
issued and the entry promise's outcome. -/
def restoreEntry (r : RestoreOptions) (e : String × Option Args) :
    List ConnOp × EntryOutcome :=
  match e.2 with
  | none =>
    if r.connector.removeOk e.1 then ([ConnOp.remove e.1], .removed)
    else ([ConnOp.remove e.1], .removeFailed)
  | some a =>
    if r.registry.execOk r.command a then
      ([ConnOp.exec r.command a], .execDone)
    else if r.connector.removeOk e.1 then
      ([ConnOp.exec r.command a, ConnOp.remove e.1], .removed)
    else
      ([ConnOp.exec r.command a, ConnOp.remove e.1], .removeFailed)

/-- Errors with which `restore` rejects. -/
inductive RestoreErr where
  | alreadyRestored
  | entryFailed
  deriving DecidableEq, Repr

/-- Result of a call to `restore`. -/
structure RestoreResult where
  state : TrackerState
  res : Except RestoreErr (List EntryOutcome)

/-- `InstanceTracker.restore(options)`, taken at the point where the
connector's listing (and the optional `when` gate) have resolved: `saved`
pairs each listed id with its payload (`none` when `args` is `undefined`).
The guard throws before any mutation; otherwise `_hasRestored` and
`_restore` are set synchronously, the entries are all mapped into their
per-entry promises, and `Promise.all` fulfills (resolving `_restored`)
exactly when every entry promise fulfills. -/
def restore (s : TrackerState) (r : RestoreOptions)
    (saved : List (String × Option Args)) : RestoreResult :=
  if s.hasRestored then ⟨s, .error .alreadyRestored⟩
  else
    let s1 := { s with hasRestored := true, restoreConf := some r }
    let outcomes := saved.map fun e => (restoreEntry r e).2
    if outcomes.all entrySettled then
      ⟨{ s1 with restoredResolved := true }, .ok outcomes⟩
    else
      ⟨s1, .error .entryFailed⟩

/-- The trace of collaborator operations issued by a `restore` call over a
resolved listing (all entry promises are started by `map`, so every entry's
operations are issued regardless of the other entries' outcomes). -/
def restoreOps (r : RestoreOptions) (saved : List (String × Option Args)) :
    List ConnOp :=
  saved.flatMap fun e => (restoreEntry r e).1

/-- The `WidgetTracker` handler connected to the wrapped tracker's
`currentChanged` signal, as a function of the wrapped `InstanceTracker`
state, the focus collaborator's `currentWidget` at dispatch time, and the
emitted value.  Returns the new wrapped-tracker state and the list of values
emitted on the public `currentChanged` signal.

When the emitted value is `null` and the focus collaborator reports a
focused widget, the handler re-asserts `instances.current` to that widget
and returns without propagating; the setter's own emission is re-dispatched
synchronously through this very handler, and since it carries a non-null
value it falls into the propagation branch, so it is forwarded publicly
unchanged. -/
def handleCurrentChanged (s : TrackerState) (focusCur : Option Nat)
    (widget : Option Nat) : TrackerState × List (Option Nat) :=
  match widget with
  | some w => (s, [some w])
  | none =>
    match focusCur with
    | none => (s, [none])
    | some w =>
      let p := setCurrent s (some w)
      (p.1, p.2.map fun e =>
        match e with
        | Event.currentChanged v => v
        | Event.added o => some o
        | Event.updated o => some o)

/-- The tracker invariant of the specification: `current` is `null` or a
member of `instances`. -/
def TrackerInv (s : TrackerState) : Prop :=
  match s.current with
  | none => True
  | some o => o ∈ s.instances

/-- `WidgetTracker.currentWidget`: `this._instanceTracker.current || null`
(the disjunction with `null` is the identity on an object-or-null value). -/
def currentWidget (s : TrackerState) : Option Nat := s.current

/-! ## Concrete fixtures used by witnesses and counterexamples -/

/-- A connector whose operations all fulfill. -/
def demoConnector : Connector := ⟨fun _ => true, fun _ => true⟩

/-- A connector whose `save` rejects on every key. -/
def saveFailConnector : Connector := ⟨fun _ => false, fun _ => true⟩

/-- A connector whose `remove` rejects on every key. -/
def removeFailConnector : Connector := ⟨fun _ => true, fun _ => false⟩

/-- A registry whose command executions all fulfill. -/
def demoRegistry : Registry := ⟨fun _ _ => true⟩

/-- A registry that fails exactly on argument `1`. -/
def failOnOneRegistry : Registry := ⟨fun _ a => !(a == 1)⟩

/-- A restore configuration over the all-fulfilling collaborators, naming
instance `o` as `"w"`. -/
def demoOptions : RestoreOptions :=
  ⟨"launch", demoConnector, demoRegistry, fun _ => "w", fun o => o⟩

/-- A fresh tracker with namespace `"t"`. -/
def demoState : TrackerState := { nspace := "t" }

/-- A tracker with namespace `"t"` already tracking instances 1 and 2. -/
def demoTracked : TrackerState :=
  { nspace := "t", instances := [1, 2], connected := [1, 2] }

/-! ## Claims -/

/-- C5: `InstanceTracker.add` rejects with an error when the instance is
already disposed or already tracked, and in both failure cases the tracked
set (and the whole tracker state) is left unchanged, with no events
emitted. -/
theorem add_disposed_or_duplicate_rejects (s : TrackerState) (o : Nat) :
    add s o true = ⟨s, [], [], .error .disposedErr⟩ ∧
    (s.instances.contains o = true →
      add s o false = ⟨s, [], [], .error .alreadyTracked⟩) := by
  constructor
  · rfl
  · intro h
    have h' : o ∈ s.instances := by simpa using h
    simp [add, h']

/-- Witness for C5 at a concrete tracker: adding a disposed instance and
re-adding a tracked instance both reject and leave the state untouched. -/
theorem add_disposed_or_duplicate_rejects_witness :
    add demoTracked 1 true = ⟨demoTracked, [], [], .error .disposedErr⟩ ∧
    add demoTracked 1 false = ⟨demoTracked, [], [], .error .alreadyTracked⟩ :=
  ⟨(add_disposed_or_duplicate_rejects demoTracked 1).1,
   (add_disposed_or_duplicate_rejects demoTracked 1).2 (by decide)⟩

/-- C6: `restore` may be invoked at most once: a first call on a tracker
that has not restored does not hit the already-restored guard, records the
restore configuration and marks the tracker restored; every subsequent call
fails with the already-restored error and changes nothing. -/
theorem restore_one_shot (s : TrackerState) (r r2 : RestoreOptions)
    (saved saved2 : List (String × Option Args)) (h : s.hasRestored = false) :
    (restore s r saved).res ≠ .error .alreadyRestored ∧
    (restore s r saved).state.hasRestored = true ∧
    (restore s r saved).state.restoreConf = some r ∧
    restore (restore s r saved).state r2 saved2 =
      ⟨(restore s r saved).state, .error .alreadyRestored⟩ := by
  have hfst : (restore s r saved).res ≠ .error .alreadyRestored ∧
      (restore s r saved).state.hasRestored = true ∧
      (restore s r saved).state.restoreConf = some r := by
    unfold restore
    simp only [h, Bool.false_eq_true, if_false]
    split <;> simp
  have hsecond : ∀ t : TrackerState, t.hasRestored = true →
      ∀ (r' : RestoreOptions) (sv : List (String × Option Args)),
      restore t r' sv = ⟨t, .error .alreadyRestored⟩ := by
    intro t ht r' sv
    unfold restore
    simp [ht]
  exact ⟨hfst.1, hfst.2.1, hfst.2.2, hsecond _ hfst.2.1 r2 saved2⟩

/-- Witness for C6 at a concrete tracker and restore configuration. -/
theorem restore_one_shot_witness :
    (restore demoState demoOptions []).res ≠ .error .alreadyRestored ∧
    (restore demoState demoOptions []).state.hasRestored = true ∧
    (restore demoState demoOptions []).state.restoreConf = some demoOptions ∧
    restore (restore demoState demoOptions []).state demoOptions [] =
      ⟨(restore demoState demoOptions []).state, .error .alreadyRestored⟩ :=
  restore_one_shot demoState demoOptions demoOptions [] [] (by decide)

/-- C7: the `current` setter is a silent no-op (state unchanged, no event)
when the value is not a member of the tracked set, a no-op when it equals
the value already held, and otherwise updates the pointer and emits exactly
one `currentChanged` event carrying the new value. -/
theorem setCurrent_claim (s : TrackerState) (obj : Option Nat) :
    (memOpt obj s.instances = false → setCurrent s obj = (s, [])) ∧
    (s.current = obj → setCurrent s obj = (s, [])) ∧
    (s.current ≠ obj → memOpt obj s.instances = true →
      setCurrent s obj =
        ({ s with current := obj }, [Event.currentChanged obj])) := by
  refine ⟨?_, ?_, ?_⟩
  · intro h
    unfold setCurrent
    split
    · rfl
    · simp [h]
  · intro h
    simp [setCurrent, h]
  · intro h1 h2
    simp [setCurrent, h1, h2]

/-- Witness for C7 at a concrete tracker: a non-member set is a no-op, a
repeated set is a no-op, and a fresh member set updates and emits once. -/
theorem setCurrent_claim_witness :
    setCurrent demoTracked (some 5) = (demoTracked, []) ∧
    setCurrent demoTracked none = (demoTracked, []) ∧
    setCurrent demoTracked (some 2) =
      ({ demoTracked with current := some 2 },
        [Event.currentChanged (some 2)]) :=
  ⟨(setCurrent_claim demoTracked (some 5)).1 (by decide),
   (setCurrent_claim demoTracked none).2.1 (by decide),
   (setCurrent_claim demoTracked (some 2)).2.2 (by decide) (by decide)⟩

/-- The tracker invariant restated pointwise. -/
theorem trackerInv_iff (s : TrackerState) :
    TrackerInv s ↔ ∀ x, s.current = some x → x ∈ s.instances := by
  unfold TrackerInv
  cases s.current <;> simp

/-- `add` never changes `current`. -/
theorem add_state_current (s : TrackerState) (o : Nat) (d : Bool) :
    (add s o d).state.current = s.current := by
  simp only [add]
  repeat' split
  all_goals rfl

/-- `add` only enlarges the instance set. -/
theorem add_state_instances_mono (s : TrackerState) (o : Nat) (d : Bool)
    (x : Nat) (hx : x ∈ s.instances) : x ∈ (add s o d).state.instances := by
  simp only [add]
  repeat' split
  all_goals simp_all

/-- `add` preserves the tracker invariant. -/
theorem add_inv (s : TrackerState) (o : Nat) (d : Bool)
    (hinv : TrackerInv s) : TrackerInv (add s o d).state := by
  rw [trackerInv_iff] at hinv ⊢
  intro x hx
  rw [add_state_current] at hx
  exact add_state_instances_mono s o d x (hinv x hx)

/-- `setCurrent` leaves the instance set unchanged and either leaves
`current` unchanged or sets it to a member value. -/
theorem setCurrent_fields (s : TrackerState) (obj : Option Nat) :
    (setCurrent s obj).1.instances = s.instances ∧
    ((setCurrent s obj).1.current = s.current ∨
      ((setCurrent s obj).1.current = obj ∧
        memOpt obj s.instances = true)) := by
  unfold setCurrent
  by_cases h1 : s.current = obj
  · simp [h1]
  · by_cases h2 : memOpt obj s.instances = true
    · simp [h1, h2]
    · simp [h1, h2]

/-- Closed-form description of the `_onInstanceDisposed` handler. -/
theorem onInstanceDisposed_eq (s : TrackerState) (o : Nat) :
    onInstanceDisposed s o =
      ⟨{ s with instances := s.instances.erase o,
                current := if s.current = some o then none else s.current },
        if s.current = some o then [Event.currentChanged none] else [],
        if s.injected o = false ∧ s.restoreConf.isSome ∧ s.names o ≠ ""
          then [ConnOp.remove (s.names o)] else []⟩ := by
  cases hinj : s.injected o
  · cases hconf : s.restoreConf
    · simp [onInstanceDisposed, hinj, hconf]
    · by_cases hname : s.names o = ""
      · simp [onInstanceDisposed, hinj, hconf, hname]
      · simp [onInstanceDisposed, hinj, hconf, hname]
  · simp [onInstanceDisposed, hinj]

/-- C2: after every operation — `add`, `inject`, setting `current`,
disposal-triggered removal, tracker `dispose` — the `current` pointer is
still either null or a member of the tracked instance set. -/
theorem current_member_invariant (s : TrackerState) (o : Nat) (d : Bool)
    (obj : Option Nat) (hinv : TrackerInv s) :
    TrackerInv (add s o d).state ∧ TrackerInv (inject s o d).state ∧
    TrackerInv (setCurrent s obj).1 ∧
    TrackerInv (onInstanceDisposed s o).state ∧
    TrackerInv (dispose s) := by
  have hinv' := (trackerInv_iff s).mp hinv
  refine ⟨add_inv s o d hinv, ?_, ?_, ?_, ?_⟩
  · unfold inject
    exact add_inv _ o d hinv
  · rw [trackerInv_iff]
    intro x hx
    have hf := setCurrent_fields s obj
    rw [hf.1]
    rcases hf.2 with hc | ⟨hc, hm⟩
    · exact hinv' x (by rw [← hc]; exact hx)
    · rw [hc] at hx
      rw [hx] at hm
      simpa [memOpt] using hm
  · rw [trackerInv_iff]
    intro x hx
    rw [onInstanceDisposed_eq] at hx
    rw [onInstanceDisposed_eq]
    have hx' : (if s.current = some o then none else s.current) = some x := hx
    show x ∈ s.instances.erase o
    by_cases hco : s.current = some o
    · rw [if_pos hco] at hx'
      exact absurd hx' (by simp)
    · rw [if_neg hco] at hx'
      have hxo : x ≠ o := by
        intro he
        exact hco (by rw [hx', he])
      exact (List.mem_erase_of_ne hxo).mpr (hinv' x hx')
  · rw [trackerInv_iff]
    intro x hx
    unfold dispose at hx ⊢
    by_cases hd : s.isDisposed = true
    · rw [if_pos hd] at hx ⊢
      exact hinv' x hx
    · rw [if_neg hd] at hx
      exact absurd hx (by simp)

/-- Witness for C2 at a concrete tracker and operation arguments. -/
theorem current_member_invariant_witness :
    TrackerInv (add demoTracked 3 false).state ∧
    TrackerInv (inject demoTracked 3 false).state ∧
    TrackerInv (setCurrent demoTracked (some 2)).1 ∧
    TrackerInv (onInstanceDisposed demoTracked 3).state ∧
    TrackerInv (dispose demoTracked) :=
  current_member_invariant demoTracked 3 false (some 2) (by trivial)

/-- C8: when a tracked instance signals disposal, it is removed from the
instance set; if it was `current`, the pointer is cleared and exactly one
`currentChanged` event with null is emitted; an injected instance triggers
no persistence action; otherwise, with a restore configuration and a
non-empty recorded name, a single fire-and-forget removal of the persisted
entry is issued (the handler never consults its outcome, so its failure is
ignored). -/
theorem instance_disposal_cleanup (s : TrackerState) (o : Nat) :
    (onInstanceDisposed s o).state.instances = s.instances.erase o ∧
    (s.current = some o →
      (onInstanceDisposed s o).state.current = none ∧
      (onInstanceDisposed s o).events = [Event.currentChanged none]) ∧
    (s.current ≠ some o →
      (onInstanceDisposed s o).state.current = s.current ∧
      (onInstanceDisposed s o).events = []) ∧
    (s.injected o = true → (onInstanceDisposed s o).ops = []) ∧
    (s.injected o = false → s.restoreConf = none →
      (onInstanceDisposed s o).ops = []) ∧
    (∀ r, s.injected o = false → s.restoreConf = some r → s.names o ≠ "" →
      (onInstanceDisposed s o).ops = [ConnOp.remove (s.names o)]) ∧
    (s.injected o = false → s.names o = "" →
      (onInstanceDisposed s o).ops = []) := by
  rw [onInstanceDisposed_eq]
  refine ⟨rfl, ?_, ?_, ?_, ?_, ?_, ?_⟩
  · intro h
    simp [h]
  · intro h
    simp [h]
  · intro h
    simp [h]
  · intro h1 h2
    simp [h1, h2]
  · intro r h1 h2 h3
    simp [h1, h2, h3]
  · intro h1 h2
    simp [h1, h2]

/-- Witness for C8: disposing the current, non-injected instance `1` of a
tracker with a restore configuration and a recorded name. -/
theorem instance_disposal_cleanup_witness :
    (onInstanceDisposed
        { demoTracked with current := some 1,
                           restoreConf := some demoOptions,
                           names := fun x => if x = 1 then "t:w" else "" }
        1).state.instances = [2] ∧
    (onInstanceDisposed
        { demoTracked with current := some 1,
                           restoreConf := some demoOptions,
                           names := fun x => if x = 1 then "t:w" else "" }
        1).state.current = none ∧
    (onInstanceDisposed
        { demoTracked with current := some 1,
                           restoreConf := some demoOptions,
                           names := fun x => if x = 1 then "t:w" else "" }
        1).events = [Event.currentChanged none] ∧
    (onInstanceDisposed
        { demoTracked with current := some 1,
                           restoreConf := some demoOptions,
                           names := fun x => if x = 1 then "t:w" else "" }
        1).ops = [ConnOp.remove "t:w"] := by
  have h := instance_disposal_cleanup
    { demoTracked with current := some 1,
                       restoreConf := some demoOptions,
                       names := fun x => if x = 1 then "t:w" else "" } 1
  refine ⟨by rw [h.1]; rfl, (h.2.1 rfl).1, (h.2.1 rfl).2, ?_⟩
  have := h.2.2.2.2.2.1 demoOptions rfl rfl (by simp)
  simpa using this

/-- Restore options whose connector rejects every `save`. -/
def saveFailOptions : RestoreOptions :=
  ⟨"launch", saveFailConnector, demoRegistry, fun _ => "w", fun o => o⟩

/-- A fresh tracker that already holds a restore configuration whose
connector rejects `save`. -/
def preparedState : TrackerState :=
  { nspace := "t", restoreConf := some saveFailOptions }

/-- C10: `add` is not atomic with respect to persistence failure.  For a
non-disposed, untracked, non-injected instance with a restore configuration
and a non-empty computed name, a rejected connector `save` makes `add`
reject — yet the instance is already in the tracked set, its disposal
subscription is connected, its name tag is recorded, and the `added` event
is never emitted. -/
theorem add_not_atomic_on_save_failure (s : TrackerState) (r : RestoreOptions)
    (o : Nat) (h1 : s.instances.contains o = false)
    (h2 : s.injected o = false) (h3 : s.restoreConf = some r)
    (h4 : r.nameOf o ≠ "")
    (h5 : r.connector.saveOk (fullName s.nspace (r.nameOf o)) = false) :
    (add s o false).res = .error .saveRejected ∧
    (add s o false).state.instances = s.instances ++ [o] ∧
    hasInst (add s o false).state o = true ∧
    (add s o false).state.connected = s.connected ++ [o] ∧
    (add s o false).state.names o = fullName s.nspace (r.nameOf o) ∧
    (add s o false).events = [] := by
  have h1' : o ∉ s.instances := by simpa using h1
  simp [add, hasInst, h1', h2, h3, h4, h5]

/-- Witness for C10: adding instance 7 to a prepared tracker whose
connector rejects the persistence write. -/
theorem add_not_atomic_on_save_failure_witness :
    (add preparedState 7 false).res = .error .saveRejected ∧
    (add preparedState 7 false).state.instances = preparedState.instances ++ [7] ∧
    hasInst (add preparedState 7 false).state 7 = true ∧
    (add preparedState 7 false).state.connected = preparedState.connected ++ [7] ∧
    (add preparedState 7 false).state.names 7 =
      fullName preparedState.nspace (saveFailOptions.nameOf 7) ∧
    (add preparedState 7 false).events = [] :=
  add_not_atomic_on_save_failure preparedState saveFailOptions 7
    (by decide) rfl rfl (by decide) rfl

/-- C9: when the wrapped tracker's `current` changes to null while the
focus collaborator reports a still-tracked focused widget `w`, the
`WidgetTracker` handler re-asserts the underlying `current` to `w`; the
public `currentChanged` emissions carry `w` and never null, and
`currentWidget` ends up `w` rather than null. -/
theorem widget_reasserts_focused_on_null (s : TrackerState) (w : Nat)
    (hc : s.current = none) (hm : s.instances.contains w = true) :
    handleCurrentChanged s (some w) none =
      ({ s with current := some w }, [some w]) ∧
    currentWidget (handleCurrentChanged s (some w) none).1 = some w := by
  have hm' : w ∈ s.instances := by simpa using hm
  have h : handleCurrentChanged s (some w) none =
      ({ s with current := some w }, [some w]) := by
    simp [handleCurrentChanged, setCurrent, hc, memOpt, hm']
  exact ⟨h, by rw [h]; rfl⟩

/-- Witness for C9: a tracker whose current went null while widget 2 is
still focused and tracked. -/
theorem widget_reasserts_focused_on_null_witness :
    handleCurrentChanged demoTracked (some 2) none =
      ({ demoTracked with current := some 2 }, [some 2]) ∧
    currentWidget (handleCurrentChanged demoTracked (some 2) none).1 =
      some 2 :=
  widget_reasserts_focused_on_null demoTracked 2 rfl (by decide)

/-- A registry that fails exactly on argument `1`, paired with the
all-fulfilling connector: the spec's three-entry restore scenario. -/
def scenarioOptions : RestoreOptions :=
  ⟨"launch", demoConnector, failOnOneRegistry, fun _ => "w", fun o => o⟩

/-- The spec's persisted listing: entries 1 and 3 carry payloads, entry 2
does not; entry 1's command execution will fail. -/
def scenarioSaved : List (String × Option Args) :=
  [("t:a", some 1), ("t:b", none), ("t:c", some 3)]

/-- C3: per-entry restore processing — a payload-less entry is removed from
storage directly; an entry with a payload has the configured command
executed with its stored arguments; a failed execution removes the
persisted entry and the execution error is swallowed (when the removals
fulfill, `restore` still fulfills with the full outcome list); and every
entry's operations are issued into the batch regardless of the other
entries. -/
theorem restore_entry_handling (s : TrackerState) (r : RestoreOptions)
    (saved : List (String × Option Args)) (id : String) (a : Args)
    (h : s.hasRestored = false) :
    restoreEntry r (id, none) =
      ([ConnOp.remove id],
        if r.connector.removeOk id then .removed else .removeFailed) ∧
    (r.registry.execOk r.command a = true →
      restoreEntry r (id, some a) =
        ([ConnOp.exec r.command a], .execDone)) ∧
    (r.registry.execOk r.command a = false →
      r.connector.removeOk id = true →
      restoreEntry r (id, some a) =
        ([ConnOp.exec r.command a, ConnOp.remove id], .removed)) ∧
    ((∀ e ∈ saved, entrySettled (restoreEntry r e).2 = true) →
      (restore s r saved).res =
        .ok (saved.map fun e => (restoreEntry r e).2)) ∧
    (∀ e ∈ saved, ∀ op ∈ (restoreEntry r e).1, op ∈ restoreOps r saved) := by
  refine ⟨?_, ?_, ?_, ?_, ?_⟩
  · by_cases hc : r.connector.removeOk id = true <;> simp [restoreEntry, hc]
  · intro h'
    simp [restoreEntry, h']
  · intro h1 h2
    simp [restoreEntry, h1, h2]
  · intro hall
    have hb : (saved.map fun e => (restoreEntry r e).2).all entrySettled
        = true := by
      refine List.all_eq_true.mpr ?_
      intro x hx
      obtain ⟨e, he, rfl⟩ := List.mem_map.mp hx
      exact hall e he
    unfold restore
    simp [h, hb]
  · intro e he op hop
    unfold restoreOps
    exact List.mem_flatMap.mpr ⟨e, he, hop⟩

/-- Witness for C3 at the spec's three-entry scenario (entry 1's command
fails, entry 2 has no payload, entry 3 succeeds). -/
theorem restore_entry_handling_witness :
    (restoreEntry scenarioOptions ("t:b", none) =
      ([ConnOp.remove "t:b"],
        if scenarioOptions.connector.removeOk "t:b" then .removed
        else .removeFailed) ∧
    (scenarioOptions.registry.execOk scenarioOptions.command 1 = true →
      restoreEntry scenarioOptions ("t:b", some 1) =
        ([ConnOp.exec scenarioOptions.command 1], .execDone)) ∧
    (scenarioOptions.registry.execOk scenarioOptions.command 1 = false →
      scenarioOptions.connector.removeOk "t:b" = true →
      restoreEntry scenarioOptions ("t:b", some 1) =
        ([ConnOp.exec scenarioOptions.command 1, ConnOp.remove "t:b"],
          .removed)) ∧
    ((∀ e ∈ scenarioSaved,
        entrySettled (restoreEntry scenarioOptions e).2 = true) →
      (restore demoState scenarioOptions scenarioSaved).res =
        .ok (scenarioSaved.map fun e => (restoreEntry scenarioOptions e).2)) ∧
    (∀ e ∈ scenarioSaved, ∀ op ∈ (restoreEntry scenarioOptions e).1,
      op ∈ restoreOps scenarioOptions scenarioSaved)) :=
  restore_entry_handling demoState scenarioOptions scenarioSaved "t:b" 1 rfl

/-- Restore options whose connector rejects every `remove`. -/
def removeFailOptions : RestoreOptions :=
  ⟨"launch", removeFailConnector, demoRegistry, fun _ => "w", fun o => o⟩

/-- Counterexample to C1 as stated: with a single payload-less persisted
entry whose `connector.remove` rejects, the entry's promise rejects, the
`Promise.all` batch rejects, and `restore` returns without ever resolving
the `restored` promise — so `restored` does not resolve "regardless of
whether any individual entry's removal succeeded or failed". -/
theorem restored_blocked_by_removal_failure :
    (restore demoState removeFailOptions [("t:a", none)]).res =
      .error .entryFailed ∧
    (restore demoState removeFailOptions
      [("t:a", none)]).state.restoredResolved = false := by
  constructor <;> rfl

/-- C1 (amended): after the listing and the optional gating conditions
resolve, all persisted entries are processed independently (each entry's
operations are issued into the batch regardless of the other entries'
outcomes, and each entry's outcome depends on that entry alone), and the
`restored` promise resolves exactly when every per-entry promise settles —
command-execution failures are tolerated (recovered by a fallback removal),
but a rejected removal rejects the batch and leaves `restored`
unresolved. -/
theorem restore_batch_completion (s : TrackerState) (r : RestoreOptions)
    (saved : List (String × Option Args)) (h : s.hasRestored = false)
    (h2 : s.restoredResolved = false) :
    ((restore s r saved).state.restoredResolved =
      saved.all fun e => entrySettled (restoreEntry r e).2) ∧
    ((restore s r saved).res =
      if saved.all (fun e => entrySettled (restoreEntry r e).2) then
        .ok (saved.map fun e => (restoreEntry r e).2)
      else .error .entryFailed) ∧
    (∀ e ∈ saved, ∀ op ∈ (restoreEntry r e).1,
      op ∈ restoreOps r saved) := by
  have hmap : (saved.map fun e => (restoreEntry r e).2).all entrySettled
      = saved.all fun e => entrySettled (restoreEntry r e).2 := by
    refine Bool.eq_iff_iff.mpr ?_
    rw [List.all_eq_true, List.all_eq_true]
    constructor
    · intro hall e he
      exact hall _ (List.mem_map.mpr ⟨e, he, rfl⟩)
    · intro hall x hx
      obtain ⟨e, he, rfl⟩ := List.mem_map.mp hx
      exact hall e he
  refine ⟨?_, ?_, ?_⟩
  · unfold restore
    rw [if_neg (by simp [h])]
    by_cases hb : (saved.map fun e => (restoreEntry r e).2).all entrySettled
        = true
    · rw [if_pos hb]
      rw [← hmap, hb]
    · rw [if_neg hb]
      have hb' : (saved.all fun e => entrySettled (restoreEntry r e).2)
          = false := by
        rw [← hmap]
        exact Bool.eq_false_iff.mpr hb
      rw [hb', h2]
  · unfold restore
    rw [if_neg (by simp [h])]
    by_cases hb : (saved.map fun e => (restoreEntry r e).2).all entrySettled
        = true
    · rw [if_pos hb]
      rw [if_pos (by rw [← hmap]; exact hb)]
    · rw [if_neg hb]
      rw [if_neg (by rw [← hmap]; exact hb)]
  · intro e he op hop
    unfold restoreOps
    exact List.mem_flatMap.mpr ⟨e, he, hop⟩

/-- Witness for the amended C1 at the mixed scenario: the all-fulfilling
connector and a registry failing on entry 1 still let every entry settle,
so `restored` resolves with the full outcome list. -/
theorem restore_batch_completion_witness :
    ((restore demoState scenarioOptions scenarioSaved).state.restoredResolved
      = scenarioSaved.all fun e =>
          entrySettled (restoreEntry scenarioOptions e).2) ∧
    ((restore demoState scenarioOptions scenarioSaved).res =
      if scenarioSaved.all
          (fun e => entrySettled (restoreEntry scenarioOptions e).2) then
        .ok (scenarioSaved.map fun e => (restoreEntry scenarioOptions e).2)
      else .error .entryFailed) ∧
    (∀ e ∈ scenarioSaved, ∀ op ∈ (restoreEntry scenarioOptions e).1,
      op ∈ restoreOps scenarioOptions scenarioSaved) :=
  restore_batch_completion demoState scenarioOptions scenarioSaved rfl rfl

/-- Field description of `saveRest` on the success path (the connector
fulfills the write when one is issued). -/
theorem saveRest_fields (s : TrackerState) (r : RestoreOptions) (o : Nat)
    (oldName newName : String) (ops0 : List ConnOp)
    (hsv : newName ≠ "" → r.connector.saveOk newName = true) :
    (saveRest s r o oldName newName ops0).state.names o = newName ∧
    (saveRest s r o oldName newName ops0).state.nspace = s.nspace ∧
    (saveRest s r o oldName newName ops0).state.instances = s.instances ∧
    (saveRest s r o oldName newName ops0).state.injected = s.injected ∧
    (saveRest s r o oldName newName ops0).state.restoreConf
      = s.restoreConf ∧
    (saveRest s r o oldName newName ops0).events =
      (if oldName ≠ newName then [Event.updated o] else []) ∧
    (saveRest s r o oldName newName ops0).ops =
      ops0 ++ (if newName ≠ "" then [ConnOp.save newName (r.argsOf o)]
               else []) ∧
    (saveRest s r o oldName newName ops0).res = .ok () := by
  unfold saveRest
  by_cases hne : newName = ""
  · simp [hne]
  · simp [hne, hsv hne]

/-- A `save` whose computed name equals the recorded name emits nothing,
whichever way the connector behaves. -/
theorem saveRest_events_stable (s : TrackerState) (r : RestoreOptions)
    (o : Nat) (name : String) (ops0 : List ConnOp) :
    (saveRest s r o name name ops0).events = [] := by
  unfold saveRest
  by_cases h : name = ""
  · simp [h]
  · by_cases h2 : r.connector.saveOk name = true <;> simp [h, h2]

/-- When the recorded name already equals the freshly computed name,
`save` emits no `updated` event. -/
theorem save_stable (s1 : TrackerState) (r : RestoreOptions) (o : Nat)
    (h1 : s1.restoreConf = some r) (h2 : hasInst s1 o = true)
    (h3 : s1.injected o = false)
    (hn : s1.names o =
      (if r.nameOf o ≠ "" then fullName s1.nspace (r.nameOf o) else "")) :
    (save s1 o).events = [] := by
  simp only [save, h1]
  rw [if_neg (by simp [h2, h3])]
  rw [if_neg (by simp [hn])]
  rw [hn]
  exact saveRest_events_stable s1 r o _ []

/-- C4: for a tracked, non-injected instance under a restore
configuration, `save` recomputes the restoration name; when the name
changed and an old entry was recorded, the old persisted entry is removed
before the new write; the recorded name tag is always updated (even to
empty); the arguments are persisted exactly when the new name is
non-empty; `updated` is emitted exactly when the name changed, so a second
save with the same computed name emits zero `updated` events.  With no
restore configuration, an untracked instance, or an injected instance,
`save` is a silent no-op. -/
theorem save_claim (s : TrackerState) (r : RestoreOptions) (o : Nat) :
    (s.restoreConf = none → save s o = ⟨s, [], [], .ok ()⟩) ∧
    (hasInst s o = false → save s o = ⟨s, [], [], .ok ()⟩) ∧
    (s.injected o = true → save s o = ⟨s, [], [], .ok ()⟩) ∧
    (s.restoreConf = some r → hasInst s o = true → s.injected o = false →
      ∀ newName,
      newName =
        (if r.nameOf o ≠ "" then fullName s.nspace (r.nameOf o) else "") →
      (s.names o ≠ "" → s.names o ≠ newName →
        r.connector.removeOk (s.names o) = true) →
      (newName ≠ "" → r.connector.saveOk newName = true) →
      ((save s o).state.names o = newName ∧
       (save s o).ops =
         (if s.names o ≠ "" ∧ s.names o ≠ newName
          then [ConnOp.remove (s.names o)] else []) ++
         (if newName ≠ "" then [ConnOp.save newName (r.argsOf o)]
          else []) ∧
       (save s o).events =
         (if s.names o ≠ newName then [Event.updated o] else []) ∧
       (save s o).res = .ok () ∧
       (save (save s o).state o).events = [])) := by
  refine ⟨?_, ?_, ?_, ?_⟩
  · intro h
    simp [save, h]
  · intro h
    unfold save
    cases hconf : s.restoreConf <;> simp [h, hconf]
  · intro h
    unfold save
    cases hconf : s.restoreConf <;> simp [h, hconf]
  · intro h1 h2 h3 newName hnn hrem hsave
    subst hnn
    simp only [save, h1]
    rw [if_neg (by simp [h2, h3])]
    by_cases hold : s.names o ≠ "" ∧ s.names o ≠
        (if r.nameOf o ≠ "" then fullName s.nspace (r.nameOf o) else "")
    · rw [if_pos hold, if_pos (hrem hold.1 hold.2)]
      obtain ⟨hnames, hnsp, hinst, hinj2, hconf, hevs, hops, hres⟩ :=
        saveRest_fields s r o (s.names o) _ [ConnOp.remove (s.names o)]
          hsave
      refine ⟨hnames, ?_, ?_, hres, ?_⟩
      · rw [hops, if_pos hold]
      · rw [hevs, if_pos hold.2]
      · refine save_stable _ r o ?_ ?_ ?_ ?_
        · rw [hconf, h1]
        · unfold hasInst
          rw [hinst]
          exact h2
        · rw [hinj2]
          exact h3
        · rw [hnsp]
          exact hnames
    · rw [if_neg hold]
      obtain ⟨hnames, hnsp, hinst, hinj2, hconf, hevs, hops, hres⟩ :=
        saveRest_fields s r o (s.names o) _ [] hsave
      refine ⟨hnames, ?_, hevs, hres, ?_⟩
      · rw [hops, if_neg hold]
      · refine save_stable _ r o ?_ ?_ ?_ ?_
        · rw [hconf, h1]
        · unfold hasInst
          rw [hinst]
          exact h2
        · rw [hinj2]
          exact h3
        · rw [hnsp]
          exact hnames

/-- A tracker holding instance 1 under a restore configuration, with the
old restoration name `"t:old"` recorded for it. -/
def renameState : TrackerState :=
  { nspace := "t", instances := [1], connected := [1],
    restoreConf := some demoOptions,
    names := fun x => if x = 1 then "t:old" else "" }

/-- Witness for C4: saving instance 1 of `renameState` renames `"t:old"`
to `"t:w"`: the old entry is removed before the new write, exactly one
`updated` event fires, and a second save fires none. -/
theorem save_claim_witness :
    (save renameState 1).state.names 1 = "t:w" ∧
    (save renameState 1).ops =
      [ConnOp.remove "t:old", ConnOp.save "t:w" 1] ∧
    (save renameState 1).events = [Event.updated 1] ∧
    (save renameState 1).res = .ok () ∧
    (save (save renameState 1).state 1).events = [] := by
  have h := (save_claim renameState demoOptions 1).2.2.2 rfl (by decide)
    rfl "t:w" (by decide) (fun _ _ => rfl) (fun _ => rfl)
  simpa using h
